import Mathlib

/-!
Shallow embedding of the connection-lifecycle engine of the WebSocket
client (src/main.go), restricted to the parts needed by the claims:
the connection state machine, the two-phase retry policy, the error
classifier / recovery selector, the send path, the stats counters and
error book, and the readiness endpoint.  All numeric counters are
modelled as Nat (the Go source uses int/int32/int64 with non-negative
values and increments only); durations are abstract Nat values.
-/

namespace WSClient

/-- ConnectionState mirrors the Go enum (main.go lines 1113-1122):
Disconnected=0, Connecting=1, Connected=2, Reconnecting=3, Stopping=4,
Stopped=5. -/
inductive ConnectionState where
  | disconnected
  | connecting
  | connected
  | reconnecting
  | stopping
  | stopped
deriving DecidableEq, Repr

/-- RecoveryStrategy mirrors the Go enum (main.go lines 214-222). -/
inductive RecoveryStrategy where
  | recNone
  | recRetry
  | recReconnect
  | recReset
  | recFallback
deriving DecidableEq, Repr

/-- Error codes, from the Go constant block (main.go lines 337-371). -/
def ErrCodeConnectionRefused : Nat := 1001
def ErrCodeConnectionTimeout : Nat := 1002
def ErrCodeConnectionLost : Nat := 1003
def ErrCodeHandshakeFailed : Nat := 1004
def ErrCodeInvalidURL : Nat := 1005
def ErrCodeTLSError : Nat := 1006
def ErrCodeDNSError : Nat := 1007
def ErrCodeMessageTooLarge : Nat := 2001
def ErrCodeInvalidMessage : Nat := 2002
def ErrCodeSendTimeout : Nat := 2003
def ErrCodeReceiveTimeout : Nat := 2004
def ErrCodeEncodingError : Nat := 2005
def ErrCodeMaxRetriesExceeded : Nat := 3001
def ErrCodeRetryTimeout : Nat := 3002
def ErrCodeUnknownError : Nat := 5999
def ErrCodeSecurityViolation : Nat := 6001
def ErrCodeRateLimitExceeded : Nat := 6002
def ErrCodeSuspiciousActivity : Nat := 6003

/-- Largest value of Go's int32 type, used by the defensive
int-to-int32 clamping in shouldStopRetrying / calculateRetryDelay. -/
def maxInt32 : Nat := 2 ^ 31 - 1

/-- The int-to-int32 conversion dance in the Go source (fmt.Sprintf
followed by strconv.ParseInt with clamping): for a non-negative int it
is the identity up to math.MaxInt32 and clamps above it. -/
def clampInt32 (n : Nat) : Nat := min n maxInt32

/-- shouldStopRetrying (main.go lines 5912-5946): MaxRetries = 0 means
unlimited retries; otherwise stop once the retry counter has reached
twice MaxRetries. -/
def shouldStopRetrying (maxRetries retryCount : Nat) : Bool :=
  if maxRetries = 0 then
    false
  else
    let totalLimit := maxRetries * 2
    let totalLimitInt32 := clampInt32 totalLimit
    decide (totalLimit > 0) && decide (retryCount ≥ totalLimitInt32)

/-- calculateRetryDelay (main.go lines 6014-6054): the first fastLimit
retries (fastLimit = MaxRetries, or 5 when MaxRetries = 0) wait 0; all
later retries wait the configured RetryDelay, both in the unlimited
mode (totalLimit = 0) and in the bounded slow phase. -/
def calculateRetryDelay (maxRetries retryDelay retryCount : Nat) : Nat :=
  let fastLimit := if maxRetries = 0 then 5 else maxRetries
  let totalLimit := maxRetries * 2
  let fastLimitInt32 := clampInt32 fastLimit
  if retryCount ≤ fastLimitInt32 then
    0
  else if totalLimit = 0 then
    retryDelay
  else
    retryDelay

/-- The sentinel errors relevant to recovery selection (main.go lines
405-416) together with raw library errors, for which only the verdict
of isNetworkError matters (captured by the boolean flag). -/
inductive GoErrorBase where
  | connClosed
  | handshakeTimeout
  | readTimeout
  | writeTimeout
  | raw (net : Bool)
deriving DecidableEq, Repr

/-- ConnectionError (main.go lines 420-427), restricted to the fields
recovery selection inspects: the error code, whether its rendered
Error() string matches one of the network-error substrings of
containsNetworkErrorPattern (main.go lines 6966-6988), and the wrapped
cause reachable through Unwrap (used by errors.Is). -/
structure ConnErrModel where
  code : Nat
  netPattern : Bool
  cause : Option GoErrorBase
deriving DecidableEq, Repr

/-- An error value as seen by GetRecoveryStrategy: either one of the
sentinel / raw errors, or a ConnectionError. -/
inductive GoError where
  | base (b : GoErrorBase)
  | connErr (c : ConnErrModel)
deriving DecidableEq, Repr

/-- isNetworkError (main.go lines 6897-6932).  The sentinel errors are
errors.New values with Chinese messages: they match neither the
syscall / net.OpError / net.DNSError branches nor any of the English
substrings, so they classify as non-network.  A raw error carries its
classification as a flag; a ConnectionError is not one of the typed
branches, so only the final string-pattern check applies to it. -/
def isNetworkError (e : GoError) : Bool :=
  match e with
  | .base (.raw net) => net
  | .base _ => false
  | .connErr c => c.netPattern

/-- errors.Is on the modelled errors: an error matches a sentinel when
it is that sentinel or (for ConnectionError, via Unwrap, main.go lines
471-473) wraps it. -/
def goErrIs (e : GoError) (t : GoErrorBase) : Bool :=
  match e with
  | .base b => b = t
  | .connErr c => c.cause = some t

/-- DefaultErrorRecovery.GetRecoveryStrategy (main.go lines 2644-2685),
branch for branch: nil error, network error, the four sentinel checks,
then the switch over the ConnectionError code. -/
def GetRecoveryStrategy (err : Option GoError) : RecoveryStrategy :=
  match err with
  | none => .recNone
  | some e =>
    if isNetworkError e then .recReconnect
    else if goErrIs e .connClosed then .recReconnect
    else if goErrIs e .handshakeTimeout then .recRetry
    else if goErrIs e .readTimeout || goErrIs e .writeTimeout then .recReset
    else
      match e with
      | .connErr c =>
        if c.code = ErrCodeConnectionRefused ∨ c.code = ErrCodeConnectionTimeout then
          .recReconnect
        else if c.code = ErrCodeSendTimeout ∨ c.code = ErrCodeReceiveTimeout then
          .recRetry
        else if c.code = ErrCodeMessageTooLarge then
          .recFallback
        else
          .recRetry
      | .base _ => .recRetry

/-- The error-message substrings inspected by inferErrorCode (main.go
lines 4588-4620), modelled as flags on the error's rendered string.
isNil models a nil error argument. -/
structure ErrPattern where
  isNil : Bool
  hasConnRefused : Bool
  hasTimeout : Bool
  hasNoSuchHost : Bool
  hasTls : Bool
  hasHandshake : Bool
  hasMsgTooLarge : Bool
  hasInvalid : Bool
  hasBrokenPipe : Bool
  hasConnReset : Bool
deriving DecidableEq, Repr

/-- inferErrorCode (main.go lines 4588-4620): a cascade of
strings.Contains checks over the error message, in source order. -/
def inferErrorCode (p : ErrPattern) : Nat :=
  if p.isNil then ErrCodeUnknownError
  else if p.hasConnRefused then ErrCodeConnectionRefused
  else if p.hasTimeout then ErrCodeConnectionTimeout
  else if p.hasNoSuchHost then ErrCodeDNSError
  else if p.hasTls then ErrCodeTLSError
  else if p.hasHandshake then ErrCodeHandshakeFailed
  else if p.hasMsgTooLarge then ErrCodeMessageTooLarge
  else if p.hasInvalid then ErrCodeInvalidMessage
  else if p.hasBrokenPipe ∨ p.hasConnReset then ErrCodeConnectionLost
  else ErrCodeUnknownError

/-- An error book restricted to the per-code counters
(Stats.Errors.ErrorsByCode together with the Prometheus
ErrorsByCodeTotal map, which recordError bumps in lockstep, main.go
lines 4527 and 4539). -/
def ErrorsByCode : Type := Nat → Nat

/-- The empty error book of a freshly constructed client. -/
def emptyBook : ErrorsByCode := fun _ => 0

/-- recordError's effect on the per-code counters (main.go line 4527):
increment the entry of the extracted code. -/
def bumpCode (book : ErrorsByCode) (code : Nat) : ErrorsByCode :=
  fun k => if k = code then book k + 1 else book k

/-- One run of the supervisor retry loop in which every Connect call
fails with a dial error whose message matches the pattern p.  Mirrors
Start / attemptConnection (main.go lines 5767-5846): each failed
Connect records inferErrorCode p in the error book
(handleConnectionError, main.go lines 6237-6243), increments the retry
counter, then either gives up (shouldStopRetrying) or waits
calculateRetryDelay before the next attempt.  Returns the number of
Connect attempts made, the list of waits taken between attempts, and
the final error book.  Fuel bounds the recursion; a run that exhausts
its fuel stops without giving up. -/
def failingRun (maxRetries retryDelay : Nat) (p : ErrPattern) :
    Nat → Nat → ErrorsByCode → Nat × List Nat × ErrorsByCode
  | 0, _, book => (0, [], book)
  | fuel + 1, retryCount, book =>
    let book' := bumpCode book (inferErrorCode p)
    let retryCount' := retryCount + 1
    if shouldStopRetrying maxRetries retryCount' then
      (1, [], book')
    else
      let w := calculateRetryDelay maxRetries retryDelay retryCount'
      let rest := failingRun maxRetries retryDelay p fuel retryCount' book'
      (rest.1 + 1, w :: rest.2.1, rest.2.2)

/-- Gorilla websocket message-type constants used by the source. -/
def TextMessage : Nat := 1
def BinaryMessage : Nat := 2
def CloseMessage : Nat := 8
def PingMessage : Nat := 9
def PongMessage : Nat := 10

/-- DefaultMessageProcessor.ValidateMessage (main.go lines 2425-2449):
the message type must be one of the five WebSocket types and the
payload must not exceed the processor's maxMessageSize (which the
client constructs from config.MaxMessageSize, main.go line 3891).
Returns true when validation passes. -/
def ValidateMessage (maxMessageSize messageType dataLen : Nat) : Bool :=
  (messageType = TextMessage ∨ messageType = BinaryMessage ∨
    messageType = PingMessage ∨ messageType = PongMessage ∨
    messageType = CloseMessage) &&
  decide (dataLen ≤ maxMessageSize)

/-- SecurityChecker.CheckMessage (main.go lines 3520-3546), size and
content checks: the checker is constructed with config.MaxMessageSize
(main.go line 3938); the blocked-pattern scan applies to text messages
only and its outcome on the payload is the suspicious flag.  Returns
true when the message passes. -/
def CheckMessage (maxMessageSize messageType dataLen : Nat)
    (suspicious : Bool) : Bool :=
  decide (dataLen ≤ maxMessageSize) &&
  !(decide (messageType = TextMessage) && suspicious)

/-- The portion of the client state that the send path reads and
writes: connection state, presence of a transport handle, the send
counters, and the per-code error book. -/
structure SendState where
  state : ConnectionState
  hasConn : Bool
  messagesSent : Nat
  bytesSent : Nat
  book : ErrorsByCode

/-- Environment of one SendMessage call: the configured maximum
message size, the rate-limiter verdict, the security-checker content
verdict on this payload, whether SetWriteDeadline succeeds, whether
the transport write succeeds, and the message pattern of the write
error when it fails. -/
structure SendEnv where
  maxMessageSize : Nat
  rateAllowed : Bool
  suspicious : Bool
  deadlineOk : Bool
  writeOk : Bool
  writeErr : ErrPattern

/-- Record an error of the given code on the send-path state
(recordError, main.go lines 4513-4551, restricted to the per-code
book; the trend component is modelled separately). -/
def recordCode (st : SendState) (code : Nat) : SendState :=
  { st with book := bumpCode st.book code }

/-- WebSocketClient.SendMessage (main.go lines 5294-5443), check for
check in source order: rate limit, security check, connection
presence, ValidateMessage, the duplicated size check, write deadline,
then the serialized transport write followed by updateStats.  Returns
the updated state and the code of the ConnectionError returned to the
caller (none on success). -/
def SendMessage (env : SendEnv) (st : SendState)
    (messageType dataLen : Nat) : SendState × Option Nat :=
  if !env.rateAllowed then
    (recordCode st ErrCodeRateLimitExceeded, some ErrCodeRateLimitExceeded)
  else if !CheckMessage env.maxMessageSize messageType dataLen env.suspicious then
    (recordCode st ErrCodeSecurityViolation, some ErrCodeSecurityViolation)
  else if !(st.hasConn && decide (st.state = .connected)) then
    (recordCode st ErrCodeConnectionLost, some ErrCodeConnectionLost)
  else if !ValidateMessage env.maxMessageSize messageType dataLen then
    (recordCode st ErrCodeInvalidMessage, some ErrCodeInvalidMessage)
  else if decide (dataLen > env.maxMessageSize) then
    (recordCode st ErrCodeMessageTooLarge, some ErrCodeMessageTooLarge)
  else if !env.deadlineOk then
    (recordCode st ErrCodeSendTimeout, some ErrCodeSendTimeout)
  else if !env.writeOk then
    let code := inferErrorCode env.writeErr
    (recordCode st code, some code)
  else
    ({ st with
        messagesSent := st.messagesSent + 1
        bytesSent := st.bytesSent + dataLen }, none)

/-- Stats counters named by claim I2 (Stats plus the embedded error
book total; main.go Stats struct and metrics). -/
structure Stats where
  messagesSent : Nat
  messagesReceived : Nat
  bytesSent : Nat
  bytesReceived : Nat
  reconnectCount : Nat
  totalErrors : Nat
deriving DecidableEq, Repr

/-- Stats of a freshly constructed client: all counters zero. -/
def freshStats : Stats := ⟨0, 0, 0, 0, 0, 0⟩

/-- The operations of the client that touch the Stats counters:
updateStats on a sent frame, updateStats on a received frame
(main.go lines 4450-4473), recordError (main.go line 4519) and
setupConnection (main.go line 6378).  No other code in the source
assigns to these counters. -/
inductive StatsOp where
  | sendFrame (dataLen : Nat)
  | recvFrame (dataLen : Nat)
  | recordErr
  | setupConn
deriving DecidableEq, Repr

/-- Effect of each operation on the counters, taken from the four
assignment sites in the source: every assignment is an increment. -/
def applyStatsOp (s : Stats) : StatsOp → Stats
  | .sendFrame n =>
    { s with messagesSent := s.messagesSent + 1, bytesSent := s.bytesSent + n }
  | .recvFrame n =>
    { s with
        messagesReceived := s.messagesReceived + 1
        bytesReceived := s.bytesReceived + n }
  | .recordErr => { s with totalErrors := s.totalErrors + 1 }
  | .setupConn => { s with reconnectCount := s.reconnectCount + 1 }

/-- One entry of the rolling error trend (ErrorTrendPoint: timestamp,
error count, error code), with the timestamp abstracted to a Nat. -/
structure ErrorTrendPoint where
  timestamp : Nat
  errorCount : Nat
  errorCode : Nat
deriving DecidableEq, Repr

/-- recordError's effect on Stats.Errors.ErrorTrend (main.go lines
4538-4551): append the new point, then, when the length exceeds 1000,
keep only the last 1000 entries (the Go slice expression
ErrorTrend[len-1000:]). -/
def recordErrorTrend (trend : List ErrorTrendPoint)
    (pt : ErrorTrendPoint) : List ErrorTrendPoint :=
  let t := trend ++ [pt]
  if t.length > 1000 then t.drop (t.length - 1000) else t

/-- WebSocketClient.isConnected (main.go lines 4374-4376). -/
def isConnected (s : ConnectionState) : Bool := s = .connected

/-- WebSocketClient.handleReady (main.go lines 5061-5076): the HTTP
status is 200 when isConnected and 503 otherwise, and the JSON body's
ready field is the isConnected verdict. -/
def handleReady (s : ConnectionState) : Nat × Bool :=
  let ready := isConnected s
  let httpStatus := if ready then 200 else 503
  (httpStatus, ready)

/-- The client fields Stop touches that the state-machine claims are
about. -/
structure ClientModel where
  state : ConnectionState
  hasConn : Bool
deriving DecidableEq, Repr

/-- WebSocketClient.Stop (main.go lines 6712-6738): cancel the
context, set the state to StateDisconnected, send the close frame and
clear the handle, join the goroutines, close the log and the
monitoring servers.  The state effect is the single setState call at
line 6715, whose argument is StateDisconnected. -/
def Stop (c : ClientModel) : ClientModel :=
  { c with state := .disconnected, hasConn := false }

/-- The arguments of every setState call site in the source, in line
order (main.go lines 6156, 6237, 6382, 6465, 6573, 6715).  These are
the only writes to the atomic state cell besides its zero
initialization (StateDisconnected). -/
def setStateCallArgs : List ConnectionState :=
  [.connecting, .disconnected, .connected, .disconnected, .disconnected,
    .disconnected]

/-- setupConnection's effect on the stats (main.go lines 6360-6390):
unconditionally increment Stats.ReconnectCount and set the state to
StateConnected.  Modelled on the counters together with the state. -/
def setupConnection (s : Stats) (_st : ConnectionState) :
    Stats × ConnectionState :=
  (applyStatsOp s .setupConn, .connected)

/-- The transport write call sites of the source, one constructor per
conn.WriteMessage / conn.WriteControl occurrence: SendMessage's data
write (main.go line 5428), the heartbeat ping and the pong response
(via sendControlMessage, main.go lines 6658, 6785, 8164, writing at
line 6763), the close frame inside Stop (main.go line 6718), the
close frame inside DefaultConnector.Disconnect (main.go line 2189)
and the liveness probe in DefaultConnector.IsHealthy (main.go line
2236). -/
inductive WriteSite where
  | userSend
  | heartbeatPing
  | pongResponse
  | stopCloseFrame
  | connectorDisconnect
  | healthProbe
deriving DecidableEq, Repr

/-- Whether the write at each site is performed while holding
writeMu: SendMessage locks writeMu at line 5381 before its write, and
sendControlMessage locks it at line 6760; Stop writes its close frame
under c.mu only (lines 6716-6727), and the connector's Disconnect and
IsHealthy writes take no client lock at all. -/
def holdsWriteMu : WriteSite → Bool
  | .userSend => true
  | .heartbeatPing => true
  | .pongResponse => true
  | .stopCloseFrame => false
  | .connectorDisconnect => false
  | .healthProbe => false

/-- A dial failure whose rendered message contains the substring
timeout and none of the earlier patterns (for example the i/o timeout
dial error of the exhausted-retries scenario): inferErrorCode maps it
to ErrCodeConnectionTimeout. -/
def timeoutPattern : ErrPattern :=
  ⟨false, false, true, false, false, false, false, false, false, false⟩

/-- Send environment of the oversized-send scenario: max message size
10, rate limiter allowing, benign payload, deadline and transport
write succeeding. -/
def oversizedEnv : SendEnv := ⟨10, true, false, true, true, timeoutPattern⟩

/-- A connected client with a live handle and all-zero counters. -/
def connectedSt : SendState := ⟨.connected, true, 0, 0, emptyBook⟩

/-- inferErrorCode can only produce codes of the nine-pattern cascade
or UnknownError; MaxRetriesExceeded (3001) is not among them. -/
theorem inferErrorCode_ne_maxRetries (p : ErrPattern) :
    inferErrorCode p ≠ ErrCodeMaxRetriesExceeded := by
  unfold inferErrorCode
  split_ifs <;> decide

/-- The error book written by a failing run changes no counter other
than the one of the inferred dial-error code. -/
theorem failingRun_book_preserved (maxRetries retryDelay : Nat)
    (p : ErrPattern) (c : Nat) (hc : c ≠ inferErrorCode p) :
    ∀ fuel retryCount book,
      (failingRun maxRetries retryDelay p fuel retryCount book).2.2 c
        = book c := by
  intro fuel
  induction fuel with
  | zero => intro k book; rfl
  | succ n ih =>
    intro k book
    simp only [failingRun]
    split
    · simp [bumpCode, hc]
    · simp [bumpCode, hc, ih]

/-- For a nonzero retry budget within int32 range, calculateRetryDelay
is 0 in the fast window and the configured delay after it. -/
theorem calculateRetryDelay_eq (N D k : Nat) (hN : N ≠ 0)
    (hle : N ≤ maxInt32) :
    calculateRetryDelay N D k = if k ≤ N then 0 else D := by
  unfold calculateRetryDelay clampInt32
  simp [hN, Nat.min_eq_left hle]

/-- For a nonzero retry budget within int32 range, shouldStopRetrying
holds exactly when the retry counter has reached twice the budget. -/
theorem shouldStopRetrying_eq (N k : Nat) (hN : N ≠ 0)
    (h2 : N * 2 ≤ maxInt32) :
    shouldStopRetrying N k = decide (N * 2 ≤ k) := by
  unfold shouldStopRetrying clampInt32
  simp [hN, Nat.min_eq_left h2]
  omega

/-- Mapping a function that is constant on a range gives a replicate
list. -/
theorem map_range'_const {f : Nat → Nat} {c : Nat} (s n : Nat)
    (h : ∀ j, s ≤ j → j < s + n → f j = c) :
    (List.range' s n).map f = List.replicate n c := by
  rw [List.eq_replicate_iff]
  refine ⟨by simp, ?_⟩
  intro b hb
  rw [List.mem_map] at hb
  obtain ⟨j, hj, rfl⟩ := hb
  rw [List.mem_range'] at hj
  obtain ⟨i, hi, rfl⟩ := hj
  exact h _ (by omega) (by omega)

/-- Characterization of a failing run whose fuel is exactly the number
of attempts left before the retry limit: it makes fuel attempts, and
the waits taken between them are calculateRetryDelay at the counter
values k+1, ..., k+fuel-1. -/
theorem failingRun_char (N D : Nat) (p : ErrPattern) (hN : N ≠ 0)
    (h2 : N * 2 ≤ maxInt32) :
    ∀ fuel k book, 0 < fuel → k + fuel = N * 2 →
      (failingRun N D p fuel k book).1 = fuel ∧
      (failingRun N D p fuel k book).2.1
        = (List.range' (k + 1) (fuel - 1)).map (calculateRetryDelay N D) := by
  intro fuel
  induction fuel with
  | zero => intro k book h0; omega
  | succ n ih =>
    intro k book _ hsum
    simp only [failingRun]
    rw [shouldStopRetrying_eq _ _ hN h2]
    cases n with
    | zero =>
      have hstop : N * 2 ≤ k + 1 := by omega
      simp [hstop]
    | succ m =>
      have hgo : ¬ N * 2 ≤ k + 1 := by omega
      have hrec := ih (k + 1) (bumpCode book (inferErrorCode p))
        (by omega) (by omega)
      simp only [hgo, decide_False, Bool.false_eq_true, if_false]
      refine ⟨by simp [hrec.1], ?_⟩
      simp only [show m + 1 + 1 - 1 = m + 1 from rfl, List.range'_succ]
      simp [hrec.2]

/-- The waits of a full failing run: N zero-delay waits followed by
N - 1 waits of the configured delay. -/
theorem failingRun_waits (N D : Nat) (p : ErrPattern) (book : ErrorsByCode)
    (hN : N ≠ 0) (h2 : N * 2 ≤ maxInt32) :
    (failingRun N D p (N * 2) 0 book).1 = N * 2 ∧
    (failingRun N D p (N * 2) 0 book).2.1
      = List.replicate N 0 ++ List.replicate (N - 1) D := by
  have hchar := failingRun_char N D p hN h2 (N * 2) 0 book (by omega) (by omega)
  refine ⟨hchar.1, ?_⟩
  rw [hchar.2]
  have hsplit := List.range'_append 1 N (N - 1) 1
  rw [show (N - 1) + N = N * 2 - 1 by omega] at hsplit
  rw [show 1 + 1 * N = N + 1 by omega] at hsplit
  rw [show (0 : Nat) + 1 = 1 from rfl, ← hsplit, List.map_append]
  congr 1
  · refine map_range'_const 1 N (fun j hj1 hj2 => ?_)
    rw [calculateRetryDelay_eq N D j hN (by omega)]
    simp [show j ≤ N by omega]
  · refine map_range'_const (N + 1) (N - 1) (fun j hj1 hj2 => ?_)
    rw [calculateRetryDelay_eq N D j hN (by omega)]
    simp [show ¬ j ≤ N by omega]

/-- C1 counterexample.  The claim predicts, for max fast-retry count
N = 2 and slow delay D = 3, two no-delay retry waits followed by two
waits of 3 (one fast attempt count equal to N and D before each of
the N slow attempts).  The code instead takes the waits 0, 0, 3: the
wait before the third attempt is 0, because calculateRetryDelay
compares the counter with the fast limit after the counter was
already incremented for the failure that precedes the wait, so the
claimed wait list List.replicate 1 0 ++ List.replicate 2 3 does not
match the run. -/
theorem C1_counterexample :
    (failingRun 2 3 timeoutPattern 4 0 emptyBook).1 = 4 ∧
    (failingRun 2 3 timeoutPattern 4 0 emptyBook).2.1 = [0, 0, 3] ∧
    (failingRun 2 3 timeoutPattern 4 0 emptyBook).2.1
      ≠ List.replicate 1 0 ++ List.replicate 2 3 := by
  refine ⟨rfl, rfl, by decide⟩

/-- C1 amended.  Two-phase retry schedule as implemented: for max
fast-retry count N with 0 < N and 2N within int32 range, a run whose
dials all fail makes exactly 2N attempts and then gives up; the 2N - 1
waits between attempts are N zero-delay waits followed by N - 1 waits
of the configured slow delay D (so attempts 1 through N+1 are not
preceded by any delay and attempts N+2 through 2N are each preceded by
D); the wait taken with attempt counter k is 0 when k ≤ N and D when
k > N. -/
theorem C1_two_phase_schedule (N D : Nat) (p : ErrPattern)
    (book : ErrorsByCode) (hN : 0 < N) (h2 : N * 2 ≤ maxInt32) :
    (failingRun N D p (N * 2) 0 book).1 = N * 2 ∧
    (failingRun N D p (N * 2) 0 book).2.1
      = List.replicate N 0 ++ List.replicate (N - 1) D ∧
    (∀ k, k ≤ N → calculateRetryDelay N D k = 0) ∧
    (∀ k, N < k → calculateRetryDelay N D k = D) := by
  have hw := failingRun_waits N D p book (by omega) h2
  refine ⟨hw.1, hw.2, fun k hk => ?_, fun k hk => ?_⟩
  · rw [calculateRetryDelay_eq N D k (by omega) (by omega)]
    simp [hk]
  · rw [calculateRetryDelay_eq N D k (by omega) (by omega)]
    simp [show ¬ k ≤ N by omega]

/-- C1 witness: the amended schedule at N = 2, D = 3. -/
theorem C1_two_phase_schedule_witness :
    0 < 2 ∧ 2 * 2 ≤ maxInt32 ∧
    (failingRun 2 3 timeoutPattern (2 * 2) 0 emptyBook).2.1
      = List.replicate 2 0 ++ List.replicate 1 3 :=
  ⟨by decide, by decide,
    (C1_two_phase_schedule 2 3 timeoutPattern emptyBook (by decide)
      (by decide)).2.1⟩

/-- C5 counterexample.  In the exhausted-retries run with N = 2 and a
dial error whose message matches the timeout pattern, the final error
book holds 4 errors of code 1002 and none of code 3001: the give-up
does not record (or surface) a MaxRetriesExceeded error, contradicting
the claimed increment of errors_by_code_total at 3001. -/
theorem C5_counterexample :
    (failingRun 2 3 timeoutPattern 4 0 emptyBook).2.2
        ErrCodeMaxRetriesExceeded = 0 ∧
    (failingRun 2 3 timeoutPattern 4 0 emptyBook).2.2
        ErrCodeMaxRetriesExceeded ≠ 1 ∧
    (failingRun 2 3 timeoutPattern 4 0 emptyBook).2.2
        ErrCodeConnectionTimeout = 4 := by
  refine ⟨rfl, by decide, rfl⟩

/-- C5 amended.  When the attempt counter exceeds 2N (indeed as soon
as it reaches 2N) with N > 0, shouldStopRetrying reports give-up, but
no MaxRetriesExceeded error is surfaced or recorded: the retry loop
merely logs and exits, so after any failing run the error book's entry
for code 3001 is still 0. -/
theorem C5_giveup_without_maxretries_error (N k D fuel k0 : Nat)
    (p : ErrPattern) (hN : 0 < N) (hk : N * 2 < k) :
    shouldStopRetrying N k = true ∧
    (failingRun N D p fuel k0 emptyBook).2.2 ErrCodeMaxRetriesExceeded
      = 0 := by
  constructor
  · unfold shouldStopRetrying clampInt32
    have hN' : ¬ N = 0 := by omega
    simp [hN']
    omega
  · rw [failingRun_book_preserved N D p ErrCodeMaxRetriesExceeded
      (fun h => inferErrorCode_ne_maxRetries p h.symm) fuel k0 emptyBook]
    rfl

/-- C5 witness: give-up at counter 5 for N = 2, and the empty 3001
entry after the four-attempt failing run. -/
theorem C5_giveup_without_maxretries_error_witness :
    0 < 2 ∧ 2 * 2 < 5 ∧ shouldStopRetrying 2 5 = true ∧
    (failingRun 2 3 timeoutPattern 4 0 emptyBook).2.2
        ErrCodeMaxRetriesExceeded = 0 :=
  ⟨by decide, by decide,
    (C5_giveup_without_maxretries_error 2 5 3 4 0 timeoutPattern
      (by decide) (by decide)).1,
    (C5_giveup_without_maxretries_error 2 5 3 4 0 timeoutPattern
      (by decide) (by decide)).2⟩

/-- C2 counterexample.  A ConnectionError of kind SendTimeout (code
2003, no network pattern in its message, no wrapped sentinel) is sent
by GetRecoveryStrategy to the Retry strategy, not to Reset: the
Reset branch is reserved for the sentinel read/write timeout errors,
while the code switch maps ErrCodeSendTimeout and ErrCodeReceiveTimeout
to RecoveryRetry. -/
theorem C2_counterexample :
    GetRecoveryStrategy
        (some (.connErr ⟨ErrCodeSendTimeout, false, none⟩))
      = RecoveryStrategy.recRetry ∧
    RecoveryStrategy.recRetry ≠ RecoveryStrategy.recReset := by
  exact ⟨rfl, by decide⟩

/-- C2 amended.  Every ConnectionError whose code is SendTimeout or
ReceiveTimeout, whose message matches no network pattern and which
wraps no sentinel error, is mapped by GetRecoveryStrategy to Retry;
the Reset strategy is returned for the sentinel ErrReadTimeout and
ErrWriteTimeout errors. -/
theorem C2_timeout_kind_maps_to_retry (c : ConnErrModel)
    (hcode : c.code = ErrCodeSendTimeout ∨ c.code = ErrCodeReceiveTimeout)
    (hnet : c.netPattern = false) (hcause : c.cause = none) :
    GetRecoveryStrategy (some (.connErr c)) = RecoveryStrategy.recRetry ∧
    GetRecoveryStrategy (some (.base .readTimeout))
      = RecoveryStrategy.recReset ∧
    GetRecoveryStrategy (some (.base .writeTimeout))
      = RecoveryStrategy.recReset := by
  obtain ⟨code, net, cause⟩ := c
  simp only at hnet hcause hcode
  subst hnet hcause
  rcases hcode with h | h <;> subst h <;> exact ⟨rfl, rfl, rfl⟩

/-- C2 witness: the amended mapping at the concrete SendTimeout
error. -/
theorem C2_timeout_kind_maps_to_retry_witness :
    (ConnErrModel.mk ErrCodeSendTimeout false none).code
        = ErrCodeSendTimeout ∧
    GetRecoveryStrategy
        (some (.connErr ⟨ErrCodeSendTimeout, false, none⟩))
      = RecoveryStrategy.recRetry :=
  ⟨rfl, (C2_timeout_kind_maps_to_retry ⟨ErrCodeSendTimeout, false, none⟩
    (Or.inl rfl) rfl rfl).1⟩

/-- C3 counterexample.  With max_message_size = 10, a connected client
and an 11-byte text payload, SendMessage returns the code 6001
(SecurityViolation, raised by the SecurityChecker's own size check,
which runs before the MessageTooLarge check), not 2001
(MessageTooLarge); the 2001 entry of the error book stays 0. -/
theorem C3_counterexample :
    (SendMessage oversizedEnv connectedSt TextMessage 11).2
        = some ErrCodeSecurityViolation ∧
    some ErrCodeSecurityViolation ≠ some ErrCodeMessageTooLarge ∧
    (SendMessage oversizedEnv connectedSt TextMessage 11).1.book
        ErrCodeMessageTooLarge = 0 := by
  refine ⟨rfl, by decide, rfl⟩

/-- C3 amended.  While connected (live handle, rate limiter allowing,
benign payload, deadline and transport write succeeding): a text send
of exactly max_message_size bytes succeeds and bumps messages_sent and
bytes_sent; a send of max_message_size + 1 bytes returns a typed
failure of kind SecurityViolation (code 6001, from the security
checker's size bound, which precedes both the validator's and the
dedicated MessageTooLarge check), leaving bytes_sent, messages_sent
and the Connected state unchanged while errors_by_code_total at 6001
increments by 1. -/
theorem C3_send_boundary (env : SendEnv) (st : SendState)
    (hstate : st.state = .connected) (hconn : st.hasConn = true)
    (hrate : env.rateAllowed = true) (hsusp : env.suspicious = false)
    (hdl : env.deadlineOk = true) (hwr : env.writeOk = true) :
    (SendMessage env st TextMessage env.maxMessageSize).2 = none ∧
    (SendMessage env st TextMessage env.maxMessageSize).1.messagesSent
        = st.messagesSent + 1 ∧
    (SendMessage env st TextMessage env.maxMessageSize).1.bytesSent
        = st.bytesSent + env.maxMessageSize ∧
    (SendMessage env st TextMessage (env.maxMessageSize + 1)).2
        = some ErrCodeSecurityViolation ∧
    (SendMessage env st TextMessage (env.maxMessageSize + 1)).1.bytesSent
        = st.bytesSent ∧
    (SendMessage env st TextMessage (env.maxMessageSize + 1)).1.messagesSent
        = st.messagesSent ∧
    (SendMessage env st TextMessage (env.maxMessageSize + 1)).1.state
        = st.state ∧
    (SendMessage env st TextMessage (env.maxMessageSize + 1)).1.book
        ErrCodeSecurityViolation
        = st.book ErrCodeSecurityViolation + 1 := by
  have hval : ValidateMessage env.maxMessageSize TextMessage
      env.maxMessageSize = true := by
    simp [ValidateMessage, TextMessage]
  have hchk : CheckMessage env.maxMessageSize TextMessage
      env.maxMessageSize env.suspicious = true := by
    simp [CheckMessage, hsusp]
  have hchk2 : CheckMessage env.maxMessageSize TextMessage
      (env.maxMessageSize + 1) env.suspicious = false := by
    simp [CheckMessage, hsusp]
  refine ⟨?_, ?_, ?_, ?_, ?_, ?_, ?_, ?_⟩ <;>
    simp [SendMessage, hrate, hchk, hchk2, hstate, hconn, hval, hdl, hwr,
      recordCode, bumpCode, ErrCodeSecurityViolation]

/-- C3 witness: the amended boundary behavior at max_message_size =
10 on the connected zero-counter client. -/
theorem C3_send_boundary_witness :
    connectedSt.state = .connected ∧ oversizedEnv.rateAllowed = true ∧
    (SendMessage oversizedEnv connectedSt TextMessage
        (oversizedEnv.maxMessageSize + 1)).2
      = some ErrCodeSecurityViolation ∧
    (SendMessage oversizedEnv connectedSt TextMessage
        oversizedEnv.maxMessageSize).2 = none :=
  ⟨rfl, rfl,
    (C3_send_boundary oversizedEnv connectedSt rfl rfl rfl rfl rfl
      rfl).2.2.2.1,
    (C3_send_boundary oversizedEnv connectedSt rfl rfl rfl rfl rfl
      rfl).1⟩

/-- C4.  Stop sets the connection state to Disconnected, not to the
Stopped state the claim (and the source's own comments on
ConnectionState and setState) require; no setState call site in the
source ever stores Stopped or Stopping, so the documented terminal
state is unreachable. -/
theorem C4_stop_state_not_stopped :
    (Stop ⟨.connected, true⟩).state = ConnectionState.disconnected ∧
    (Stop ⟨.connected, true⟩).state ≠ ConnectionState.stopped ∧
    ConnectionState.stopped ∉ setStateCallArgs ∧
    ConnectionState.stopping ∉ setStateCallArgs := by
  decide

/-- C6 counterexample.  The close frame written during Stop does not
pass through the writeMu critical section (Stop writes directly on
the handle while holding only the client mutex), so it is false that
every transport write site holds writeMu. -/
theorem C6_counterexample :
    holdsWriteMu .stopCloseFrame = false ∧
    ¬ (∀ s : WriteSite, holdsWriteMu s = true) := by
  refine ⟨rfl, fun h => ?_⟩
  exact absurd (h .stopCloseFrame) (by decide)

/-- C6 amended.  A transport write site holds the writeMu critical
section exactly when it is a user data send, a heartbeat ping or a
pong response; the close frame sent during stop (and the connector's
polite-close and liveness-probe writes) bypass writeMu. -/
theorem C6_write_site_serialization (s : WriteSite) :
    holdsWriteMu s = true
      ↔ (s = WriteSite.userSend ∨ s = WriteSite.heartbeatPing ∨
          s = WriteSite.pongResponse) := by
  cases s <;> decide

/-- C7.  After every recordError the trend sequence has length at most
1000; the new sequence is a suffix of the old one extended by the new
point (so order is preserved and only the oldest entries are
dropped), and its length is the full appended length capped at
1000. -/
theorem C7_trend_bounded_suffix (trend : List ErrorTrendPoint)
    (pt : ErrorTrendPoint) :
    (recordErrorTrend trend pt).length ≤ 1000 ∧
    recordErrorTrend trend pt <:+ trend ++ [pt] ∧
    (recordErrorTrend trend pt).length = min (trend.length + 1) 1000 := by
  unfold recordErrorTrend
  by_cases h : (trend ++ [pt]).length > 1000
  · simp only [h, if_pos]
    refine ⟨?_, List.drop_suffix _ _, ?_⟩ <;>
      simp only [List.length_drop, List.length_append,
        List.length_singleton] at * <;> omega
  · simp only [h, if_neg, if_false]
    refine ⟨?_, List.suffix_refl _, ?_⟩ <;>
      simp only [List.length_append, List.length_singleton] at * <;> omega

/-- C8.  Each of the operations that touch the Stats counters
(updateStats on send, updateStats on receive, recordError,
setupConnection) leaves every one of messages_sent,
messages_received, bytes_sent, bytes_received, reconnect_count and
errors_total equal or larger: all assignment sites are increments. -/
theorem C8_counters_monotone (s : Stats) (op : StatsOp) :
    s.messagesSent ≤ (applyStatsOp s op).messagesSent ∧
    s.messagesReceived ≤ (applyStatsOp s op).messagesReceived ∧
    s.bytesSent ≤ (applyStatsOp s op).bytesSent ∧
    s.bytesReceived ≤ (applyStatsOp s op).bytesReceived ∧
    s.reconnectCount ≤ (applyStatsOp s op).reconnectCount ∧
    s.totalErrors ≤ (applyStatsOp s op).totalErrors := by
  cases op <;> simp [applyStatsOp]

/-- C9.  The readiness endpoint answers 200 with ready true exactly
when the state is Connected, and 503 with ready false exactly
otherwise. -/
theorem C9_ready_endpoint (s : ConnectionState) :
    ((handleReady s).1 = 200 ∧ (handleReady s).2 = true
        ↔ s = ConnectionState.connected) ∧
    ((handleReady s).1 = 503 ∧ (handleReady s).2 = false
        ↔ s ≠ ConnectionState.connected) := by
  cases s <;> decide

/-- C10.  setupConnection unconditionally increments
Stats.ReconnectCount on every successful connect and moves the state
to Connected, so after the very first successful connection of a
fresh client the reconnect counter already equals 1. -/
theorem C10_reconnect_counts_first_connect (s : Stats)
    (st : ConnectionState) :
    (setupConnection s st).1.reconnectCount = s.reconnectCount + 1 ∧
    (setupConnection s st).2 = ConnectionState.connected ∧
    (setupConnection freshStats st).1.reconnectCount = 1 := by
  simp [setupConnection, applyStatsOp, freshStats]

end WSClient
